import Mathlib

/-!
Shallow embedding of the avmgl OTM8009A display-driver core
(`src/common.rs`, `src/traits.rs`, `src/otm8009a/defs.rs`,
`src/otm8009a/driver.rs`, `src/testing/mocks.rs`) and proofs about it.

Machine integers (`u8`, `u16`, `u32`, `usize`) are modelled as `Nat`
with explicit `% 2^w` reductions at the points where the Rust code can
overflow or truncate.
-/

namespace Avmgl

/-- `src/common.rs` `rgb888_to_rgb565`: pack an (r, g, b) byte triple
into a 16-bit 5/6/5 value.  Inputs are `u8` values (< 256). -/
def rgb888_to_rgb565 (r g b : Nat) : Nat :=
  let r5 := r >>> 3
  let g6 := g >>> 2
  let b5 := b >>> 3
  ((r5 <<< 11) ||| (g6 <<< 5) ||| b5) % 65536

/-- `src/common.rs` `rgb565_to_rgb888`: unpack a 16-bit 5/6/5 value into
an (r, g, b) byte triple, replicating high bits into the low bits. -/
def rgb565_to_rgb888 (color : Nat) : Nat × Nat × Nat :=
  let r := (color >>> 11) &&& 0x1F
  let g := (color >>> 5) &&& 0x3F
  let b := color &&& 0x1F
  let r8 := ((r <<< 3) ||| (r >>> 2)) % 256
  let g8 := ((g <<< 2) ||| (g >>> 4)) % 256
  let b8 := ((b <<< 3) ||| (b >>> 2)) % 256
  (r8, g8, b8)

/-- Round trip through `rgb565_to_rgb888` then `rgb888_to_rgb565`,
matching the composition in the spec's testable property. -/
def rgb565_roundtrip (c : Nat) : Nat :=
  let (r, g, b) := rgb565_to_rgb888 c
  rgb888_to_rgb565 r g b


/-- A 5-bit channel value survives expand-to-8-bits then truncate. -/
theorem chan5_roundtrip : ∀ r < 32, (((r <<< 3) ||| (r >>> 2)) % 256) >>> 3 = r := by
  decide

/-- A 6-bit channel value survives expand-to-8-bits then truncate. -/
theorem chan6_roundtrip : ∀ g < 64, (((g <<< 2) ||| (g >>> 4)) % 256) >>> 2 = g := by
  decide

/-- Packing disjoint 5/6/5 bit fields with shifts and ors is plain
positional arithmetic. -/
theorem pack565 (r g b : Nat) (_hr : r < 32) (hg : g < 64) (hb : b < 32) :
    (r <<< 11) ||| (g <<< 5) ||| b = 2048 * r + 32 * g + b := by
  have h1 : r <<< 11 = 2 ^ 11 * r := by rw [Nat.shiftLeft_eq]; ring
  have h2 : g <<< 5 = 2 ^ 5 * g := by rw [Nat.shiftLeft_eq]; ring
  have e1 : 2 ^ 11 * r ||| 2 ^ 5 * g = 2 ^ 11 * r + 2 ^ 5 * g :=
    (Nat.mul_add_lt_is_or (by omega) r).symm
  have e2 : 2 ^ 11 * r + 2 ^ 5 * g = 2 ^ 5 * (64 * r + g) := by ring
  have e3 : 2 ^ 5 * (64 * r + g) ||| b = 2 ^ 5 * (64 * r + g) + b :=
    (Nat.mul_add_lt_is_or (by omega) _).symm
  rw [h1, h2, e1, e2, e3]
  ring

theorem roundtrip_test : ∀ c < 65536, rgb565_roundtrip c = c := by
  intro c hc
  have hr : (c >>> 11) &&& 31 = c / 2048 % 32 := by
    rw [Nat.shiftRight_eq_div_pow, show (31 : Nat) = 2 ^ 5 - 1 from rfl,
      Nat.and_pow_two_sub_one_eq_mod]
  have hg : (c >>> 5) &&& 63 = c / 32 % 64 := by
    rw [Nat.shiftRight_eq_div_pow, show (63 : Nat) = 2 ^ 6 - 1 from rfl,
      Nat.and_pow_two_sub_one_eq_mod]
  have hb : c &&& 31 = c % 32 := by
    rw [show (31 : Nat) = 2 ^ 5 - 1 from rfl, Nat.and_pow_two_sub_one_eq_mod]
  have hrlt : c / 2048 % 32 < 32 := Nat.mod_lt _ (by norm_num)
  have hglt : c / 32 % 64 < 64 := Nat.mod_lt _ (by norm_num)
  have hblt : c % 32 < 32 := Nat.mod_lt _ (by norm_num)
  simp only [rgb565_roundtrip, rgb565_to_rgb888, rgb888_to_rgb565]
  rw [hr, hg, hb, chan5_roundtrip _ hrlt, chan6_roundtrip _ hglt,
    chan5_roundtrip _ hblt, pack565 _ _ _ hrlt hglt hblt]
  omega

/-! ### Constants from `src/otm8009a/defs.rs` -/

/-- `defs.rs` `LCD_WIDTH`. -/
def LCD_WIDTH : Nat := 800

/-- `defs.rs` `LCD_HEIGHT`. -/
def LCD_HEIGHT : Nat := 480

/-- `defs.rs` color format controller codes. -/
def OTM8009A_FORMAT_RGB565 : Nat := 0x55

def OTM8009A_FORMAT_RGB888 : Nat := 0x77

def OTM8009A_FORMAT_RGB666 : Nat := 0x66

/-- `defs.rs` orientation codes. -/
def OTM8009A_ORIENTATION_PORTRAIT : Nat := 0

def OTM8009A_ORIENTATION_LANDSCAPE : Nat := 1

def OTM8009A_ORIENTATION_PORTRAIT_FLIPPED : Nat := 2

def OTM8009A_ORIENTATION_LANDSCAPE_FLIPPED : Nat := 3

namespace commands

/-- `defs.rs` `commands::WRITE_CTRL_DISPLAY`. -/
def WRITE_CTRL_DISPLAY : Nat := 0x53

/-- `defs.rs` `commands::WRITE_CABC`. -/
def WRITE_CABC : Nat := 0x55

end commands

namespace init_sequences

/-- `defs.rs` `init_sequences::CMD_EXTC`. -/
def CMD_EXTC : List Nat := [0xFF, 0x80, 0x09, 0x01]

/-- `defs.rs` `init_sequences::CMD_ORISE_ENTER`. -/
def CMD_ORISE_ENTER : List Nat := [0x80, 0x09, 0x00]

/-- `defs.rs` `init_sequences::CMD_GVDD_NGVDD`. -/
def CMD_GVDD_NGVDD : List Nat := [0xC5, 0x17, 0x40]

/-- `defs.rs` `init_sequences::CMD_EXIT_CMD2`. -/
def CMD_EXIT_CMD2 : List Nat := [0xFF, 0x00, 0x00, 0x00]

/-- `defs.rs` `init_sequences::CMD_GAMMA_POSITIVE`. -/
def CMD_GAMMA_POSITIVE : List Nat :=
  [0xE0, 0x00, 0x09, 0x0F, 0x0E, 0x07, 0x10, 0x0B, 0x0A,
   0x04, 0x07, 0x0B, 0x08, 0x0F, 0x10, 0x0A, 0x01]

/-- `defs.rs` `init_sequences::CMD_GAMMA_NEGATIVE`. -/
def CMD_GAMMA_NEGATIVE : List Nat :=
  [0xE1, 0x00, 0x09, 0x0F, 0x0E, 0x07, 0x10, 0x0B, 0x0A,
   0x04, 0x07, 0x0B, 0x08, 0x0F, 0x10, 0x0A, 0x01]

/-- `defs.rs` color-format select sequences. -/
def CMD_RGB565 : List Nat := [0x3A, 0x55]

def CMD_RGB888 : List Nat := [0x3A, 0x77]

def CMD_RGB666 : List Nat := [0x3A, 0x66]

/-- `defs.rs` orientation (memory access control) sequences. -/
def CMD_PORTRAIT : List Nat := [0x36, 0x00]

def CMD_LANDSCAPE : List Nat := [0x36, 0x60]

def CMD_PORTRAIT_FLIPPED : List Nat := [0x36, 0xC0]

def CMD_LANDSCAPE_FLIPPED : List Nat := [0x36, 0xA0]

/-- `defs.rs` column address sequences. -/
def CMD_CASET_LANDSCAPE : List Nat := [0x2A, 0x00, 0x00, 0x03, 0x1F]

def CMD_CASET_PORTRAIT : List Nat := [0x2A, 0x00, 0x00, 0x01, 0xDF]

/-- `defs.rs` page address sequences. -/
def CMD_PASET_LANDSCAPE : List Nat := [0x2B, 0x00, 0x00, 0x01, 0xDF]

def CMD_PASET_PORTRAIT : List Nat := [0x2B, 0x00, 0x00, 0x03, 0x1F]

/-- `defs.rs` CABC sequences. -/
def CMD_BRIGHTNESS_CTRL : List Nat := [0x53, 0x24]

def CMD_CABC_CTRL : List Nat := [0x55, 0x00]

def CMD_CABC_MIN_BRIGHTNESS : List Nat := [0x5E, 0x00]

end init_sequences

namespace timing

/-- `defs.rs` `timing` delays in milliseconds. -/
def RESET_DELAY_MS : Nat := 10

def SLEEP_OUT_DELAY_MS : Nat := 120

def DISPLAY_ON_DELAY_MS : Nat := 40

def CMD_DELAY_MS : Nat := 1

end timing

/-- `defs.rs` `Otm8009aError`. -/
inductive Otm8009aError where
  | NotReady
  | InvalidConfig
  | CommError
  | Timeout
  | InvalidCoordinates
  | Unsupported
deriving Repr, DecidableEq

/-- `traits.rs` `PixelFormat`. -/
inductive PixelFormat where
  | Argb8888
  | Rgb888
  | Rgb565
  | Argb1555
  | Argb4444
  | L8
  | Al44
  | Al88
deriving Repr, DecidableEq

/-- `traits.rs` `LayerConfig`.  Field widths: `layer`, `alpha` are `u8`;
window coordinates and `framebuffer_pitch` are `u16`;
`framebuffer_address` is `u32`. -/
structure LayerConfig where
  layer : Nat
  window_x0 : Nat
  window_x1 : Nat
  window_y0 : Nat
  window_y1 : Nat
  pixel_format : PixelFormat
  alpha : Nat
  red_blue_swap : Bool
  framebuffer_address : Nat
  framebuffer_pitch : Nat
deriving Repr, DecidableEq

/-! ### Test doubles for the three capability traits of `traits.rs`

The driver `OTM8009ADriver<D, L, F>` is generic over any
`DsiInterface`, `LtdcInterface` and `FramebufferInterface`
implementation.  We instantiate it with recording doubles in the style
of `testing/mocks.rs`: the DSI double records every
`(nb_params, params)` transaction and every requested delay exactly as
`MockDsiInterface` does, and the LTDC double records the calls made to
it.  Instead of the mocks' constant `should_fail` flag, each double
carries an error script `errs : List Bool`: each fallible call consumes
one entry (`true` = the call fails), and an exhausted script means
success.  The script generalizes `should_fail` (a constant-`false`
script is the all-succeed mock, a constant-`true` script the
all-fail mock) so that theorems can quantify over arbitrary
per-call channel behavior, which the trait permits. -/

/-- `testing/mocks.rs` `DcsCommand`: one recorded transaction. -/
structure DcsCommand where
  nb_params : Nat
  params : List Nat
deriving Repr, DecidableEq

/-- DSI double (cf. `MockDsiInterface`). -/
structure MockDsi where
  commands_sent : List DcsCommand
  delays_requested : List Nat
  errs : List Bool
deriving Repr, DecidableEq

/-- `DsiInterface::send_dcs_command`: on success (script entry `false`
or exhausted script) the transaction is recorded; on failure nothing is
recorded.  Returns `(succeeded, new state)`. -/
def MockDsi.send_dcs_command (d : MockDsi) (nb : Nat) (ps : List Nat) :
    Bool × MockDsi :=
  match d.errs with
  | true :: rest => (false, { d with errs := rest })
  | false :: rest =>
      (true, { d with commands_sent := d.commands_sent ++ [⟨nb, ps⟩], errs := rest })
  | [] => (true, { d with commands_sent := d.commands_sent ++ [⟨nb, ps⟩] })

/-- `DsiInterface::delay_ms`: records the requested delay
(cf. `MockDsiInterface::delay_ms`). -/
def MockDsi.delay_ms (d : MockDsi) (ms : Nat) : MockDsi :=
  { d with delays_requested := d.delays_requested ++ [ms] }

/-- `DsiInterface::reset`: on success clears the recorded history
(cf. `MockDsiInterface::reset`). -/
def MockDsi.reset (d : MockDsi) : Bool × MockDsi :=
  match d.errs with
  | true :: rest => (false, { d with errs := rest })
  | false :: rest => (true, { commands_sent := [], delays_requested := [], errs := rest })
  | [] => (true, { commands_sent := [], delays_requested := [], errs := [] })

/-- One recorded LTDC call (cf. `MockLtdcInterface`'s recorded state). -/
inductive LtdcEvent where
  | configureLayer (layer : Nat) (config : LayerConfig)
  | setFramebuffer (layer : Nat) (address : Nat)
  | enable
  | disable
deriving Repr, DecidableEq

/-- LTDC double (cf. `MockLtdcInterface`). -/
structure MockLtdc where
  events : List LtdcEvent
  errs : List Bool
deriving Repr, DecidableEq

/-- `LtdcInterface::configure_layer`; like `MockLtdcInterface` it also
rejects layer indices above 7. -/
def MockLtdc.configure_layer (l : MockLtdc) (layer : Nat) (config : LayerConfig) :
    Bool × MockLtdc :=
  match l.errs with
  | true :: rest => (false, { l with errs := rest })
  | false :: rest =>
      if layer > 7 then (false, { l with errs := rest })
      else (true, { l with events := l.events ++ [.configureLayer layer config], errs := rest })
  | [] =>
      if layer > 7 then (false, l)
      else (true, { l with events := l.events ++ [.configureLayer layer config] })

/-- `LtdcInterface::set_framebuffer`. -/
def MockLtdc.set_framebuffer (l : MockLtdc) (layer : Nat) (address : Nat) :
    Bool × MockLtdc :=
  match l.errs with
  | true :: rest => (false, { l with errs := rest })
  | false :: rest =>
      if layer > 7 then (false, { l with errs := rest })
      else (true, { l with events := l.events ++ [.setFramebuffer layer address], errs := rest })
  | [] =>
      if layer > 7 then (false, l)
      else (true, { l with events := l.events ++ [.setFramebuffer layer address] })

/-- `LtdcInterface::enable`. -/
def MockLtdc.enable (l : MockLtdc) : Bool × MockLtdc :=
  match l.errs with
  | true :: rest => (false, { l with errs := rest })
  | false :: rest => (true, { l with events := l.events ++ [.enable], errs := rest })
  | [] => (true, { l with events := l.events ++ [.enable] })

/-- `testing/mocks.rs` `MockFramebuffer`: the reference Pixel Buffer, a
row-major `u16` store. -/
structure MockFramebuffer where
  buffer : List Nat
  width : Nat
  height : Nat
deriving Repr, DecidableEq

/-- `MockFramebuffer::new`: a zero-initialized `width*height` buffer. -/
def MockFramebuffer.new (width height : Nat) : MockFramebuffer :=
  { buffer := List.replicate (width * height) 0, width := width, height := height }

/-- `MockFramebuffer::get_pixel`. -/
def MockFramebuffer.get_pixel (fb : MockFramebuffer) (x y : Nat) : Option Nat :=
  if x ≥ fb.width ∨ y ≥ fb.height then none
  else fb.buffer.get? (y * fb.width + x)

/-- `MockFramebuffer::fill_rect`.  The Rust code computes
`end_x = min(x + width, self.width)` in `u16`, so the sums wrap
modulo `2^16`; `buffer.get_mut(index)` silently skips out-of-range
indices, which `List.set`'s out-of-range no-op mirrors. -/
def MockFramebuffer.fill_rect (fb : MockFramebuffer)
    (x y width height color : Nat) : MockFramebuffer :=
  { fb with buffer :=
      (List.range' y (min ((y + height) % 65536) fb.height - y)).foldl (fun b row =>
        (List.range' x (min ((x + width) % 65536) fb.width - x)).foldl (fun b col =>
          b.set (row * fb.width + col) color) b) fb.buffer }

/-- `MockFramebuffer::set_pixel`: silent no-op outside the buffer. -/
def MockFramebuffer.set_pixel (fb : MockFramebuffer) (x y color : Nat) :
    MockFramebuffer :=
  if x < fb.width ∧ y < fb.height then
    { fb with buffer := fb.buffer.set (y * fb.width + x) color }
  else fb

/-- `MockFramebuffer::clear`: every stored pixel becomes `color`. -/
def MockFramebuffer.clear (fb : MockFramebuffer) (color : Nat) : MockFramebuffer :=
  { fb with buffer := fb.buffer.map (fun _ => color) }

/-- `FramebufferInterface::get_dimensions`. -/
def MockFramebuffer.get_dimensions (fb : MockFramebuffer) : Nat × Nat :=
  (fb.width, fb.height)

/-- `FramebufferInterface::get_buffer_ptr`: the mock returns the raw
memory address of its buffer; the embedding has no address space, so
pointer identity is abstracted to the constant 0 (the driver only
forwards this value to the LTDC, never inspects it). -/
def MockFramebuffer.get_buffer_ptr (_ : MockFramebuffer) : Nat := 0

/-! ### The Controller Driver, `src/otm8009a/driver.rs`

`OTM8009ADriver<D, L, F>` instantiated at the three doubles above.
Rust methods take `&mut self` and return `Result<(), Otm8009aError>`;
the embedding returns `Option Otm8009aError × OTM8009ADriver`, where
the first component is `none` for `Ok(())` and `some e` for `Err(e)`,
and the second component is the (possibly partially mutated) receiver —
an early `?` return keeps all mutations made before the failing step,
exactly as `&mut self` does. -/

structure OTM8009ADriver where
  dsi : MockDsi
  ltdc : MockLtdc
  framebuffer : MockFramebuffer
  width : Nat
  height : Nat
  initialized : Bool
deriving Repr, DecidableEq

namespace OTM8009ADriver

/-- `OTM8009ADriver::new` (driver.rs:29-38). -/
def new (dsi : MockDsi) (ltdc : MockLtdc) (framebuffer : MockFramebuffer) :
    OTM8009ADriver :=
  { dsi := dsi, ltdc := ltdc, framebuffer := framebuffer,
    width := LCD_WIDTH, height := LCD_HEIGHT, initialized := false }

/-- Shorthand for the result type of every fallible driver method. -/
abbrev DriverResult := Option Otm8009aError × OTM8009ADriver

/-- One `self.dsi.send_dcs_command(..).map_err(|_| CommError)?` step:
on channel failure return `CommError` keeping mutations so far,
otherwise continue with `k`. -/
def sendStep (d : OTM8009ADriver) (nb : Nat) (ps : List Nat)
    (k : OTM8009ADriver → DriverResult) : DriverResult :=
  match d.dsi.send_dcs_command nb ps with
  | (false, dsi') => (some .CommError, { d with dsi := dsi' })
  | (true, dsi') => k { d with dsi := dsi' }

/-- One `self.dsi.delay_ms(ms)` step. -/
def delayStep (d : OTM8009ADriver) (ms : Nat)
    (k : OTM8009ADriver → DriverResult) : DriverResult :=
  k { d with dsi := d.dsi.delay_ms ms }

/-- `is_initialized` (driver.rs:79-81). -/
def is_initialized (d : OTM8009ADriver) : Bool := d.initialized

/-- `get_dimensions` (driver.rs:83-85). -/
def get_dimensions (d : OTM8009ADriver) : Nat × Nat := (d.width, d.height)

/-- `set_orientation` (driver.rs:122-177).  Note the guard: it returns
`NotReady` whenever `self.initialized` is false — including when called
from inside `init`, which only sets the flag afterwards. -/
def set_orientation (d : OTM8009ADriver) (orientation : Nat) : DriverResult :=
  if d.initialized = false then (some .NotReady, d)
  else
    match
      (if orientation = OTM8009A_ORIENTATION_PORTRAIT then
        some (init_sequences.CMD_PORTRAIT,
              init_sequences.CMD_CASET_PORTRAIT,
              init_sequences.CMD_PASET_PORTRAIT)
      else if orientation = OTM8009A_ORIENTATION_LANDSCAPE then
        some (init_sequences.CMD_LANDSCAPE,
              init_sequences.CMD_CASET_LANDSCAPE,
              init_sequences.CMD_PASET_LANDSCAPE)
      else if orientation = OTM8009A_ORIENTATION_PORTRAIT_FLIPPED then
        some (init_sequences.CMD_PORTRAIT_FLIPPED,
              init_sequences.CMD_CASET_PORTRAIT,
              init_sequences.CMD_PASET_PORTRAIT)
      else if orientation = OTM8009A_ORIENTATION_LANDSCAPE_FLIPPED then
        some (init_sequences.CMD_LANDSCAPE_FLIPPED,
              init_sequences.CMD_CASET_LANDSCAPE,
              init_sequences.CMD_PASET_LANDSCAPE)
      else none) with
    | none => (some .InvalidConfig, d)
    | some (cmd, caset, paset) =>
      d.sendStep (cmd.length - 1) cmd.tail fun d =>
      d.sendStep (caset.length - 1) caset.tail fun d =>
      d.sendStep (paset.length - 1) paset.tail fun d =>
      if orientation = OTM8009A_ORIENTATION_PORTRAIT ∨
         orientation = OTM8009A_ORIENTATION_PORTRAIT_FLIPPED then
        (none, { d with width := LCD_HEIGHT, height := LCD_WIDTH })
      else if orientation = OTM8009A_ORIENTATION_LANDSCAPE ∨
              orientation = OTM8009A_ORIENTATION_LANDSCAPE_FLIPPED then
        (none, { d with width := LCD_WIDTH, height := LCD_HEIGHT })
      else (some .InvalidConfig, d)

/-- `init_otm8009a` (driver.rs:179-287), the bring-up command sequence.
Faithful quirks: `CMD_ORISE_ENTER` is sent with its full length and
full byte list (driver.rs:189-192) while every other sequence drops its
leading byte (`&cmd[1..]`, `len()-1`); the steps commented
"Sleep out", "Display on", "final NOP" and "Start GRAM write" all send
`send_dcs_command(0, &[])`. -/
def init_otm8009a (d : OTM8009ADriver) (color_format orientation : Nat) :
    DriverResult :=
  d.sendStep (init_sequences.CMD_EXTC.length - 1) init_sequences.CMD_EXTC.tail fun d =>
  d.delayStep timing.CMD_DELAY_MS fun d =>
  d.sendStep init_sequences.CMD_ORISE_ENTER.length init_sequences.CMD_ORISE_ENTER fun d =>
  d.delayStep timing.CMD_DELAY_MS fun d =>
  d.sendStep (init_sequences.CMD_GVDD_NGVDD.length - 1) init_sequences.CMD_GVDD_NGVDD.tail fun d =>
  d.delayStep timing.CMD_DELAY_MS fun d =>
  d.sendStep (init_sequences.CMD_EXIT_CMD2.length - 1) init_sequences.CMD_EXIT_CMD2.tail fun d =>
  d.delayStep timing.CMD_DELAY_MS fun d =>
  d.sendStep 0 [] fun d =>
  d.delayStep timing.CMD_DELAY_MS fun d =>
  d.sendStep (init_sequences.CMD_GAMMA_POSITIVE.length - 1) init_sequences.CMD_GAMMA_POSITIVE.tail fun d =>
  d.sendStep (init_sequences.CMD_GAMMA_NEGATIVE.length - 1) init_sequences.CMD_GAMMA_NEGATIVE.tail fun d =>
  d.delayStep timing.CMD_DELAY_MS fun d =>
  d.sendStep 0 [] fun d =>
  d.delayStep timing.SLEEP_OUT_DELAY_MS fun d =>
  match
    (if color_format = OTM8009A_FORMAT_RGB565 then some init_sequences.CMD_RGB565
     else if color_format = OTM8009A_FORMAT_RGB888 then some init_sequences.CMD_RGB888
     else if color_format = OTM8009A_FORMAT_RGB666 then some init_sequences.CMD_RGB666
     else none) with
  | none => (some .InvalidConfig, d)
  | some color_cmd =>
    d.sendStep (color_cmd.length - 1) color_cmd.tail fun d =>
    d.delayStep timing.CMD_DELAY_MS fun d =>
    match d.set_orientation orientation with
    | (some e, d) => (some e, d)
    | (none, d) =>
      d.sendStep (init_sequences.CMD_BRIGHTNESS_CTRL.length - 1) init_sequences.CMD_BRIGHTNESS_CTRL.tail fun d =>
      d.sendStep (init_sequences.CMD_CABC_CTRL.length - 1) init_sequences.CMD_CABC_CTRL.tail fun d =>
      d.sendStep (init_sequences.CMD_CABC_MIN_BRIGHTNESS.length - 1) init_sequences.CMD_CABC_MIN_BRIGHTNESS.tail fun d =>
      d.delayStep timing.CMD_DELAY_MS fun d =>
      d.sendStep 0 [] fun d =>
      d.delayStep timing.DISPLAY_ON_DELAY_MS fun d =>
      d.sendStep 0 [] fun d =>
      d.sendStep 0 [] fun d =>
      (none, d)

/-- `init` (driver.rs:40-77): bring-up, then LTDC layer programming,
then mark initialized.  `framebuffer_pitch` is `self.width * 2` in
`u16` arithmetic regardless of the chosen color format. -/
def init (d : OTM8009ADriver) (color_format orientation : Nat) : DriverResult :=
  match d.init_otm8009a color_format orientation with
  | (some e, d) => (some e, d)
  | (none, d) =>
    match
      (if color_format = OTM8009A_FORMAT_RGB565 then some PixelFormat.Rgb565
       else if color_format = OTM8009A_FORMAT_RGB888 then some PixelFormat.Rgb888
       else if color_format = OTM8009A_FORMAT_RGB666 then some PixelFormat.Rgb888
       else none) with
    | none => (some .InvalidConfig, d)
    | some pf =>
      match d.ltdc.configure_layer 0
        { layer := 0,
          window_x0 := 0, window_x1 := d.width,
          window_y0 := 0, window_y1 := d.height,
          pixel_format := pf,
          alpha := 255,
          red_blue_swap := false,
          framebuffer_address := d.framebuffer.get_buffer_ptr,
          framebuffer_pitch := d.width * 2 % 65536 } with
      | (false, l) => (some .CommError, { d with ltdc := l })
      | (true, l) =>
        match l.set_framebuffer 0 d.framebuffer.get_buffer_ptr with
        | (false, l2) => (some .CommError, { d with ltdc := l2 })
        | (true, l2) =>
          match l2.enable with
          | (false, l3) => (some .CommError, { d with ltdc := l3 })
          | (true, l3) => (none, { d with ltdc := l3, initialized := true })

/-- `fill_rect` facade (driver.rs:87-98). -/
def fill_rect (d : OTM8009ADriver) (x y width height color : Nat) : DriverResult :=
  if d.initialized = false then (some .NotReady, d)
  else if x ≥ d.width ∨ y ≥ d.height then (some .InvalidCoordinates, d)
  else (none, { d with framebuffer := d.framebuffer.fill_rect x y width height color })

/-- `set_pixel` facade (driver.rs:100-111). -/
def set_pixel (d : OTM8009ADriver) (x y color : Nat) : DriverResult :=
  if d.initialized = false then (some .NotReady, d)
  else if x ≥ d.width ∨ y ≥ d.height then (some .InvalidCoordinates, d)
  else (none, { d with framebuffer := d.framebuffer.set_pixel x y color })

/-- `clear` facade (driver.rs:113-120). -/
def clear (d : OTM8009ADriver) (color : Nat) : DriverResult :=
  if d.initialized = false then (some .NotReady, d)
  else (none, { d with framebuffer := d.framebuffer.clear color })

/-- `enter_sleep` (driver.rs:289-307). -/
def enter_sleep (d : OTM8009ADriver) : DriverResult :=
  if d.initialized = false then (some .NotReady, d)
  else
    d.sendStep 0 [] fun d =>
    d.delayStep timing.DISPLAY_ON_DELAY_MS fun d =>
    d.sendStep 0 [] fun d =>
    d.delayStep timing.SLEEP_OUT_DELAY_MS fun d =>
    (none, d)

/-- `exit_sleep` (driver.rs:309-327). -/
def exit_sleep (d : OTM8009ADriver) : DriverResult :=
  if d.initialized = false then (some .NotReady, d)
  else
    d.sendStep 0 [] fun d =>
    d.delayStep timing.SLEEP_OUT_DELAY_MS fun d =>
    d.sendStep 0 [] fun d =>
    d.delayStep timing.DISPLAY_ON_DELAY_MS fun d =>
    (none, d)

/-- `set_brightness` (driver.rs:329-339). -/
def set_brightness (d : OTM8009ADriver) (brightness : Nat) : DriverResult :=
  if d.initialized = false then (some .NotReady, d)
  else
    let brightness_cmd := [commands.WRITE_CTRL_DISPLAY, brightness]
    d.sendStep 1 brightness_cmd.tail fun d => (none, d)

/-- `enable_cabc` (driver.rs:341-355). -/
def enable_cabc (d : OTM8009ADriver) (mode : Nat) : DriverResult :=
  if d.initialized = false then (some .NotReady, d)
  else if mode > 3 then (some .InvalidConfig, d)
  else
    let cabc_cmd := [commands.WRITE_CABC, mode]
    d.sendStep 1 cabc_cmd.tail fun d => (none, d)

/-- `disable_cabc` (driver.rs:357-359). -/
def disable_cabc (d : OTM8009ADriver) : DriverResult :=
  d.enable_cabc 0

/-- `reset` (driver.rs:377-385): a failed channel reset propagates
`CommError` before `initialized` is cleared. -/
def reset (d : OTM8009ADriver) : DriverResult :=
  match d.dsi.reset with
  | (false, dsi') => (some .CommError, { d with dsi := dsi' })
  | (true, dsi') =>
    let d := { d with dsi := dsi' }
    let d := { d with dsi := d.dsi.delay_ms timing.RESET_DELAY_MS }
    (none, { d with initialized := false })

end OTM8009ADriver

/-- One public driver operation, for quantifying over call sequences
(the surface listed in the spec: init, orientation, pixel operations,
sleep/wake, brightness, CABC, reset). -/
inductive DriverOp where
  | init (color_format orientation : Nat)
  | set_orientation (orientation : Nat)
  | fill_rect (x y w h color : Nat)
  | set_pixel (x y color : Nat)
  | clear (color : Nat)
  | enter_sleep
  | exit_sleep
  | set_brightness (b : Nat)
  | enable_cabc (m : Nat)
  | disable_cabc
  | reset
deriving Repr, DecidableEq

/-- Run one public operation, keeping the post-state whether or not the
operation reported an error. -/
def applyOp (d : OTM8009ADriver) : DriverOp → OTM8009ADriver
  | .init cf o => (d.init cf o).2
  | .set_orientation o => (d.set_orientation o).2
  | .fill_rect x y w h c => (d.fill_rect x y w h c).2
  | .set_pixel x y c => (d.set_pixel x y c).2
  | .clear c => (d.clear c).2
  | .enter_sleep => d.enter_sleep.2
  | .exit_sleep => d.exit_sleep.2
  | .set_brightness b => (d.set_brightness b).2
  | .enable_cabc m => (d.enable_cabc m).2
  | .disable_cabc => d.disable_cabc.2
  | .reset => d.reset.2

/-! ### Concrete fixtures -/

/-- A freshly constructed driver over doubles that never fail
(empty error scripts) and a small reference Pixel Buffer. -/
def freshDriver : OTM8009ADriver :=
  OTM8009ADriver.new ⟨[], [], []⟩ ⟨[], []⟩ (MockFramebuffer.new 8 4)

/-- A driver in the Ready state (initialized, native landscape
dimensions) over doubles that never fail. -/
def readyDriver : OTM8009ADriver :=
  { dsi := ⟨[], [], []⟩, ltdc := ⟨[], []⟩,
    framebuffer := MockFramebuffer.new LCD_WIDTH LCD_HEIGHT,
    width := LCD_WIDTH, height := LCD_HEIGHT, initialized := true }

/-- An initialized driver whose channel fails its next (reset) call. -/
def readyDriverFailingChannel : OTM8009ADriver :=
  { readyDriver with dsi := ⟨[], [], [true]⟩ }

/-! ### Dimension invariant machinery (for the reachable-states claim) -/

/-- The driver's dimension pair is one of the two permutations of the
panel's native resolution. -/
def dims_ok (d : OTM8009ADriver) : Prop :=
  (d.width = LCD_WIDTH ∧ d.height = LCD_HEIGHT) ∨
  (d.width = LCD_HEIGHT ∧ d.height = LCD_WIDTH)

theorem sendStep_dims_ok {d : OTM8009ADriver} {nb : Nat} {ps : List Nat}
    {k : OTM8009ADriver → OTM8009ADriver.DriverResult} (hd : dims_ok d)
    (hk : ∀ d', dims_ok d' → dims_ok (k d').2) :
    dims_ok (d.sendStep nb ps k).2 := by
  unfold OTM8009ADriver.sendStep
  cases hsend : d.dsi.send_dcs_command nb ps with
  | mk ok dsi' =>
    cases ok
    · exact hd
    · exact hk _ hd

theorem delayStep_dims_ok {d : OTM8009ADriver} {ms : Nat}
    {k : OTM8009ADriver → OTM8009ADriver.DriverResult} (hd : dims_ok d)
    (hk : ∀ d', dims_ok d' → dims_ok (k d').2) :
    dims_ok (d.delayStep ms k).2 :=
  hk _ hd

theorem set_orientation_dims_ok (d : OTM8009ADriver) (o : Nat) (hd : dims_ok d) :
    dims_ok (d.set_orientation o).2 := by
  unfold OTM8009ADriver.set_orientation
  split
  · exact hd
  · split
    · exact hd
    · apply sendStep_dims_ok hd; intro d hd
      apply sendStep_dims_ok hd; intro d hd
      apply sendStep_dims_ok hd; intro d hd
      split
      · exact Or.inr ⟨rfl, rfl⟩
      · split
        · exact Or.inl ⟨rfl, rfl⟩
        · exact hd

theorem init_otm8009a_dims_ok (d : OTM8009ADriver) (cf o : Nat) (hd : dims_ok d) :
    dims_ok (d.init_otm8009a cf o).2 := by
  unfold OTM8009ADriver.init_otm8009a
  apply sendStep_dims_ok hd; intro d hd
  apply delayStep_dims_ok hd; intro d hd
  apply sendStep_dims_ok hd; intro d hd
  apply delayStep_dims_ok hd; intro d hd
  apply sendStep_dims_ok hd; intro d hd
  apply delayStep_dims_ok hd; intro d hd
  apply sendStep_dims_ok hd; intro d hd
  apply delayStep_dims_ok hd; intro d hd
  apply sendStep_dims_ok hd; intro d hd
  apply delayStep_dims_ok hd; intro d hd
  apply sendStep_dims_ok hd; intro d hd
  apply sendStep_dims_ok hd; intro d hd
  apply delayStep_dims_ok hd; intro d hd
  apply sendStep_dims_ok hd; intro d hd
  apply delayStep_dims_ok hd; intro d hd
  split
  · exact hd
  · apply sendStep_dims_ok hd; intro d hd
    apply delayStep_dims_ok hd; intro d hd
    cases horient : d.set_orientation o with
    | mk e dO =>
      have hO : dims_ok dO := by
        have h := set_orientation_dims_ok d o hd
        rw [horient] at h
        exact h
      cases e
      · apply sendStep_dims_ok hO; intro d hd
        apply sendStep_dims_ok hd; intro d hd
        apply sendStep_dims_ok hd; intro d hd
        apply delayStep_dims_ok hd; intro d hd
        apply sendStep_dims_ok hd; intro d hd
        apply delayStep_dims_ok hd; intro d hd
        apply sendStep_dims_ok hd; intro d hd
        apply sendStep_dims_ok hd; intro d hd
        exact hd
      · exact hO

theorem init_dims_ok (d : OTM8009ADriver) (cf o : Nat) (hd : dims_ok d) :
    dims_ok (d.init cf o).2 := by
  unfold OTM8009ADriver.init
  split
  · rename_i e dI heq
    have h := init_otm8009a_dims_ok d cf o hd
    rw [heq] at h
    exact h
  · rename_i dI heq
    have hI : dims_ok dI := by
      have h := init_otm8009a_dims_ok d cf o hd
      rw [heq] at h
      exact h
    split
    · exact hI
    · split
      · exact hI
      · split
        · exact hI
        · split
          · exact hI
          · exact hI

theorem applyOp_dims_ok (d : OTM8009ADriver) (op : DriverOp) (hd : dims_ok d) :
    dims_ok (applyOp d op) := by
  cases op with
  | init cf o => exact init_dims_ok d cf o hd
  | set_orientation o => exact set_orientation_dims_ok d o hd
  | fill_rect x y w h c =>
      simp only [applyOp]
      unfold OTM8009ADriver.fill_rect
      split
      · exact hd
      · split
        · exact hd
        · exact hd
  | set_pixel x y c =>
      simp only [applyOp]
      unfold OTM8009ADriver.set_pixel
      split
      · exact hd
      · split
        · exact hd
        · exact hd
  | clear c =>
      simp only [applyOp]
      unfold OTM8009ADriver.clear
      split
      · exact hd
      · exact hd
  | enter_sleep =>
      simp only [applyOp]
      unfold OTM8009ADriver.enter_sleep
      split
      · exact hd
      · apply sendStep_dims_ok hd; intro d hd
        apply delayStep_dims_ok hd; intro d hd
        apply sendStep_dims_ok hd; intro d hd
        apply delayStep_dims_ok hd; intro d hd
        exact hd
  | exit_sleep =>
      simp only [applyOp]
      unfold OTM8009ADriver.exit_sleep
      split
      · exact hd
      · apply sendStep_dims_ok hd; intro d hd
        apply delayStep_dims_ok hd; intro d hd
        apply sendStep_dims_ok hd; intro d hd
        apply delayStep_dims_ok hd; intro d hd
        exact hd
  | set_brightness b =>
      simp only [applyOp]
      unfold OTM8009ADriver.set_brightness
      split
      · exact hd
      · apply sendStep_dims_ok hd; intro d hd
        exact hd
  | enable_cabc m =>
      simp only [applyOp]
      unfold OTM8009ADriver.enable_cabc
      split
      · exact hd
      · split
        · exact hd
        · apply sendStep_dims_ok hd; intro d hd
          exact hd
  | disable_cabc =>
      simp only [applyOp]
      unfold OTM8009ADriver.disable_cabc OTM8009ADriver.enable_cabc
      split
      · exact hd
      · split
        · exact hd
        · apply sendStep_dims_ok hd; intro d hd
          exact hd
  | reset =>
      simp only [applyOp]
      unfold OTM8009ADriver.reset
      cases hr : d.dsi.reset with
      | mk ok dsi' =>
        cases ok
        · exact hd
        · exact hd

theorem foldl_dims_ok (ops : List DriverOp) :
    ∀ d : OTM8009ADriver, dims_ok d → dims_ok (ops.foldl applyOp d) := by
  induction ops with
  | nil => intro d hd; exact hd
  | cons op rest ih =>
      intro d hd
      exact ih (applyOp d op) (applyOp_dims_ok d op hd)

/-! ### Pixel-level characterization of `MockFramebuffer.fill_rect` -/

/-- Membership in a step-1 `range'` is an interval condition. -/
theorem mem_range'_iff {s n m : Nat} : m ∈ List.range' s n ↔ s ≤ m ∧ m < s + n := by
  rw [List.mem_range']
  constructor
  · rintro ⟨i, hi, rfl⟩
    omega
  · intro hb
    exact ⟨m - s, by omega, by omega⟩

/-- Folding `set` over a list of indices writes `color` at exactly the
in-range listed indices. -/
theorem foldl_set_get? (color : Nat) (ixs : List Nat) :
    ∀ (b : List Nat) (i : Nat),
      (ixs.foldl (fun acc j => acc.set j color) b).get? i =
        if i ∈ ixs ∧ i < b.length then some color else b.get? i := by
  induction ixs with
  | nil =>
      intro b i
      simp
  | cons j rest ih =>
      intro b i
      simp only [List.foldl_cons]
      rw [ih]
      by_cases hlen : i < b.length
      · by_cases hmem : i ∈ rest
        · simp [hmem, hlen, List.length_set]
        · by_cases hij : i = j
          · subst hij
            simp [hmem, hlen, List.length_set]
          · simp [hmem, hij, hlen, List.length_set,
              show j ≠ i from fun hji => hij hji.symm]
      · have h1 : (b.set j color)[i]? = none :=
          List.getElem?_eq_none (by rw [List.length_set]; omega)
        have h2 : b[i]? = none := List.getElem?_eq_none (by omega)
        simp [hlen, List.length_set, h1, h2]

/-- One row of the rectangle fill, as an index predicate. -/
theorem row_foldl_get? (cols : List Nat) (r W color : Nat) (b : List Nat) (i : Nat) :
    (cols.foldl (fun acc col => acc.set (r * W + col) color) b).get? i =
      if (∃ c ∈ cols, r * W + c = i) ∧ i < b.length then some color
      else b.get? i := by
  rw [show (cols.foldl (fun acc col => acc.set (r * W + col) color) b)
        = ((cols.map (fun col => r * W + col)).foldl (fun acc j => acc.set j color) b) by
      rw [List.foldl_map]]
  rw [foldl_set_get?]
  simp only [List.mem_map]

/-- The row fold does not change the buffer length. -/
theorem row_foldl_length (cols : List Nat) (r W color : Nat) :
    ∀ b : List Nat,
      (cols.foldl (fun acc col => acc.set (r * W + col) color) b).length = b.length := by
  induction cols with
  | nil => intro b; rfl
  | cons c rest ih =>
      intro b
      simp only [List.foldl_cons]
      rw [ih, List.length_set]

/-- The whole rectangle fill, as an index predicate. -/
theorem rect_foldl_get? (cols : List Nat) (W color : Nat) (rows : List Nat) :
    ∀ (b : List Nat) (i : Nat),
      ((rows.foldl (fun acc row =>
          cols.foldl (fun acc2 col => acc2.set (row * W + col) color) acc) b)).get? i =
        if (∃ r ∈ rows, ∃ c ∈ cols, r * W + c = i) ∧ i < b.length then some color
        else b.get? i := by
  induction rows with
  | nil =>
      intro b i
      simp
  | cons r rest ih =>
      intro b i
      simp only [List.foldl_cons]
      rw [ih, row_foldl_get?, row_foldl_length]
      by_cases h2 : ∃ c ∈ cols, r * W + c = i
      · by_cases hlen : i < b.length
        · simp [h2, hlen, List.exists_mem_cons_iff]
        · simp [h2, hlen, List.exists_mem_cons_iff]
      · by_cases h1 : ∃ r' ∈ rest, ∃ c ∈ cols, r' * W + c = i
        · simp [h1, h2, List.exists_mem_cons_iff]
        · simp [h1, h2, List.exists_mem_cons_iff]

/-! ### LTDC-preservation machinery (for the layer-pitch claim):
`init_otm8009a` (and `set_orientation` inside it) never touches the
Layer Manager, so the LTDC state the layer-programming step of `init`
sees is the constructor-time one. -/

theorem sendStep_ltdc {L : MockLtdc} {d : OTM8009ADriver} {nb : Nat} {ps : List Nat}
    {k : OTM8009ADriver → OTM8009ADriver.DriverResult} (hd : d.ltdc = L)
    (hk : ∀ d', d'.ltdc = L → (k d').2.ltdc = L) :
    (d.sendStep nb ps k).2.ltdc = L := by
  unfold OTM8009ADriver.sendStep
  cases hsend : d.dsi.send_dcs_command nb ps with
  | mk ok dsi' =>
    cases ok
    · exact hd
    · exact hk _ hd

theorem delayStep_ltdc {L : MockLtdc} {d : OTM8009ADriver} {ms : Nat}
    {k : OTM8009ADriver → OTM8009ADriver.DriverResult} (hd : d.ltdc = L)
    (hk : ∀ d', d'.ltdc = L → (k d').2.ltdc = L) :
    (d.delayStep ms k).2.ltdc = L :=
  hk _ hd

theorem set_orientation_ltdc {L : MockLtdc} (d : OTM8009ADriver) (o : Nat)
    (hd : d.ltdc = L) : (d.set_orientation o).2.ltdc = L := by
  unfold OTM8009ADriver.set_orientation
  split
  · exact hd
  · split
    · exact hd
    · apply sendStep_ltdc hd; intro d hd
      apply sendStep_ltdc hd; intro d hd
      apply sendStep_ltdc hd; intro d hd
      split
      · exact hd
      · split
        · exact hd
        · exact hd

theorem init_otm8009a_ltdc {L : MockLtdc} (d : OTM8009ADriver) (cf o : Nat)
    (hd : d.ltdc = L) : (d.init_otm8009a cf o).2.ltdc = L := by
  unfold OTM8009ADriver.init_otm8009a
  apply sendStep_ltdc hd; intro d hd
  apply delayStep_ltdc hd; intro d hd
  apply sendStep_ltdc hd; intro d hd
  apply delayStep_ltdc hd; intro d hd
  apply sendStep_ltdc hd; intro d hd
  apply delayStep_ltdc hd; intro d hd
  apply sendStep_ltdc hd; intro d hd
  apply delayStep_ltdc hd; intro d hd
  apply sendStep_ltdc hd; intro d hd
  apply delayStep_ltdc hd; intro d hd
  apply sendStep_ltdc hd; intro d hd
  apply sendStep_ltdc hd; intro d hd
  apply delayStep_ltdc hd; intro d hd
  apply sendStep_ltdc hd; intro d hd
  apply delayStep_ltdc hd; intro d hd
  split
  · exact hd
  · apply sendStep_ltdc hd; intro d hd
    apply delayStep_ltdc hd; intro d hd
    cases horient : d.set_orientation o with
    | mk e dO =>
      have hO : dO.ltdc = L := by
        have h := set_orientation_ltdc d o hd
        rw [horient] at h
        exact h
      cases e
      · apply sendStep_ltdc hO; intro d hd
        apply sendStep_ltdc hd; intro d hd
        apply sendStep_ltdc hd; intro d hd
        apply delayStep_ltdc hd; intro d hd
        apply sendStep_ltdc hd; intro d hd
        apply delayStep_ltdc hd; intro d hd
        apply sendStep_ltdc hd; intro d hd
        apply sendStep_ltdc hd; intro d hd
        exact hd
      · exact hO

/-! ### Claim theorems -/

/-- C1: the claim says `init(color_format, orientation)` returns `Ok`
for every supported format and orientation when the channel and layer
manager never fail, and `is_initialized()` is `true` afterwards.  The
code cannot do this: `set_orientation` (driver.rs:122-125) returns
`NotReady` unless `self.initialized` is already `true`, and `init`
only sets that flag after `init_otm8009a` — which calls
`set_orientation` — has succeeded.  So for every supported color
format and every supported orientation, `init` on a fresh driver with
an error-free channel returns `Err(NotReady)` and leaves
`is_initialized() == false`. -/
theorem init_always_notReady :
    ∀ cf ∈ [OTM8009A_FORMAT_RGB565, OTM8009A_FORMAT_RGB666, OTM8009A_FORMAT_RGB888],
    ∀ o ∈ [OTM8009A_ORIENTATION_PORTRAIT, OTM8009A_ORIENTATION_LANDSCAPE,
           OTM8009A_ORIENTATION_PORTRAIT_FLIPPED, OTM8009A_ORIENTATION_LANDSCAPE_FLIPPED],
      (freshDriver.init cf o).1 = some Otm8009aError.NotReady ∧
      (freshDriver.init cf o).2.is_initialized = false := by
  decide

theorem init_always_notReady_witness :
    OTM8009A_FORMAT_RGB565 ∈
      [OTM8009A_FORMAT_RGB565, OTM8009A_FORMAT_RGB666, OTM8009A_FORMAT_RGB888] ∧
    OTM8009A_ORIENTATION_LANDSCAPE ∈
      [OTM8009A_ORIENTATION_PORTRAIT, OTM8009A_ORIENTATION_LANDSCAPE,
       OTM8009A_ORIENTATION_PORTRAIT_FLIPPED, OTM8009A_ORIENTATION_LANDSCAPE_FLIPPED] ∧
    ((freshDriver.init OTM8009A_FORMAT_RGB565 OTM8009A_ORIENTATION_LANDSCAPE).1 =
        some Otm8009aError.NotReady ∧
      (freshDriver.init OTM8009A_FORMAT_RGB565 OTM8009A_ORIENTATION_LANDSCAPE).2.is_initialized
        = false) :=
  ⟨by decide, by decide,
    init_always_notReady OTM8009A_FORMAT_RGB565 (by decide)
      OTM8009A_ORIENTATION_LANDSCAPE (by decide)⟩

/-- C2: the claim says every transaction of `init` is the exact
`(command byte, parameter bytes)` pair of the wire table.  The code
diverges: the leading command byte of each stored sequence is dropped
(`send_dcs_command(cmd.len()-1, &cmd[1..])`), so the unlock
transaction carries no `0xFF`; the "sleep-out" step sends
`send_dcs_command(0, &[])` — an empty transaction, not command `0x11`
(though the 120 ms settle delay does follow it); and the sequence
aborts at the orientation step with `NotReady` before brightness,
display-on, or the terminating no-ops are ever sent.  This theorem
evaluates the full transaction and delay trace of
`init(Rgb565, Landscape)` on a fresh driver with an error-free
channel. -/
theorem init_wire_trace_diverges :
    (freshDriver.init OTM8009A_FORMAT_RGB565 OTM8009A_ORIENTATION_LANDSCAPE).2.dsi.commands_sent =
      [⟨3, [0x80, 0x09, 0x01]⟩,
       ⟨3, [0x80, 0x09, 0x00]⟩,
       ⟨2, [0x17, 0x40]⟩,
       ⟨3, [0x00, 0x00, 0x00]⟩,
       ⟨0, []⟩,
       ⟨16, [0x00, 0x09, 0x0F, 0x0E, 0x07, 0x10, 0x0B, 0x0A,
             0x04, 0x07, 0x0B, 0x08, 0x0F, 0x10, 0x0A, 0x01]⟩,
       ⟨16, [0x00, 0x09, 0x0F, 0x0E, 0x07, 0x10, 0x0B, 0x0A,
             0x04, 0x07, 0x0B, 0x08, 0x0F, 0x10, 0x0A, 0x01]⟩,
       ⟨0, []⟩,
       ⟨1, [0x55]⟩] ∧
    (freshDriver.init OTM8009A_FORMAT_RGB565 OTM8009A_ORIENTATION_LANDSCAPE).2.dsi.delays_requested =
      [1, 1, 1, 1, 1, 1, 120, 1] := by
  decide

/-- C3 counterexample: an initialized driver whose channel `reset`
fails.  `reset` propagates `CommError` with `?` before clearing
`initialized` (driver.rs:378-382), so `is_initialized()` is still
`true` after `reset()` returns — the claim's unconditional
"afterwards `is_initialized()` is false" is wrong for this input. -/
theorem reset_failing_channel_cex :
    (readyDriverFailingChannel.reset).1 = some Otm8009aError.CommError ∧
    (readyDriverFailingChannel.reset).2.is_initialized ≠ false := by
  decide

/-- C3 amended: when the channel's `reset` succeeds (next script entry
not `true`), `reset()` returns `Ok`, leaves `is_initialized() = false`,
and every subsequent pixel operation returns `NotReady`, from any
driver state; when the channel's `reset` fails, `reset()` returns
`CommError` and leaves the `initialized` flag unchanged. -/
theorem reset_amended :
    ∀ (d : OTM8009ADriver) (x y w h c : Nat),
      if d.dsi.errs.head? = some true then
        (d.reset).1 = some Otm8009aError.CommError ∧
        (d.reset).2.initialized = d.initialized
      else
        (d.reset).1 = none ∧
        (d.reset).2.is_initialized = false ∧
        ((d.reset).2.fill_rect x y w h c).1 = some Otm8009aError.NotReady ∧
        ((d.reset).2.set_pixel x y c).1 = some Otm8009aError.NotReady ∧
        ((d.reset).2.clear c).1 = some Otm8009aError.NotReady := by
  intro d x y w h c
  unfold OTM8009ADriver.reset MockDsi.reset
  match herr : d.dsi.errs with
  | [] =>
      simp [herr, OTM8009ADriver.is_initialized, OTM8009ADriver.fill_rect,
        OTM8009ADriver.set_pixel, OTM8009ADriver.clear]
  | true :: rest =>
      simp [herr]
  | false :: rest =>
      simp [herr, OTM8009ADriver.is_initialized, OTM8009ADriver.fill_rect,
        OTM8009ADriver.set_pixel, OTM8009ADriver.clear]

/-- C4 counterexample: `init` with the unknown color-format value `0`
on a fresh driver does return `InvalidConfig` with
`is_initialized() == false`, but only after eight transactions have
already been sent on the channel — not "before any transaction" as the
claim states (the format check sits at driver.rs:237-242, after the
whole unlock/vendor/gamma/sleep-out prefix). -/
theorem init_invalid_format_cex :
    (freshDriver.init 0 0).1 = some Otm8009aError.InvalidConfig ∧
    (freshDriver.init 0 0).2.dsi.commands_sent.length = 8 ∧
    (freshDriver.init 0 0).2.dsi.commands_sent ≠ [] := by
  decide

/-- C4 amended: for every color-format value that is not one of the
three known controller codes, `init` returns `InvalidConfig` and
`is_initialized()` is `false` afterward, but the validation happens
only at the color-format-selection step: the eight bring-up
transactions up to and including the (empty) sleep-out step have
already been emitted on the channel when the error is raised. -/
theorem init_invalid_format_amended :
    ∀ (d : OTM8009ADriver) (cf o : Nat),
      cf ≠ OTM8009A_FORMAT_RGB565 → cf ≠ OTM8009A_FORMAT_RGB888 →
      cf ≠ OTM8009A_FORMAT_RGB666 →
      d.initialized = false → d.dsi.errs = [] →
      (d.init cf o).1 = some Otm8009aError.InvalidConfig ∧
      (d.init cf o).2.is_initialized = false ∧
      (d.init cf o).2.dsi.commands_sent = d.dsi.commands_sent ++
        [⟨3, [0x80, 0x09, 0x01]⟩,
         ⟨3, [0x80, 0x09, 0x00]⟩,
         ⟨2, [0x17, 0x40]⟩,
         ⟨3, [0x00, 0x00, 0x00]⟩,
         ⟨0, []⟩,
         ⟨16, [0x00, 0x09, 0x0F, 0x0E, 0x07, 0x10, 0x0B, 0x0A,
               0x04, 0x07, 0x0B, 0x08, 0x0F, 0x10, 0x0A, 0x01]⟩,
         ⟨16, [0x00, 0x09, 0x0F, 0x0E, 0x07, 0x10, 0x0B, 0x0A,
               0x04, 0x07, 0x0B, 0x08, 0x0F, 0x10, 0x0A, 0x01]⟩,
         ⟨0, []⟩] := by
  intro d cf o h565 h888 h666 hinit herrs
  replace h565 : cf ≠ 85 := h565
  replace h888 : cf ≠ 119 := h888
  replace h666 : cf ≠ 102 := h666
  unfold OTM8009ADriver.init OTM8009ADriver.init_otm8009a
  simp [OTM8009ADriver.sendStep, OTM8009ADriver.delayStep,
    MockDsi.send_dcs_command, MockDsi.delay_ms, herrs, h565, h888, h666,
    OTM8009A_FORMAT_RGB565, OTM8009A_FORMAT_RGB888, OTM8009A_FORMAT_RGB666,
    init_sequences.CMD_EXTC, init_sequences.CMD_ORISE_ENTER,
    init_sequences.CMD_GVDD_NGVDD, init_sequences.CMD_EXIT_CMD2,
    init_sequences.CMD_GAMMA_POSITIVE, init_sequences.CMD_GAMMA_NEGATIVE,
    OTM8009ADriver.is_initialized, hinit]

theorem init_invalid_format_amended_witness :
    (0 : Nat) ≠ OTM8009A_FORMAT_RGB565 ∧ (0 : Nat) ≠ OTM8009A_FORMAT_RGB888 ∧
    (0 : Nat) ≠ OTM8009A_FORMAT_RGB666 ∧
    freshDriver.initialized = false ∧ freshDriver.dsi.errs = [] ∧
    ((freshDriver.init 0 0).1 = some Otm8009aError.InvalidConfig ∧
     (freshDriver.init 0 0).2.is_initialized = false ∧
     (freshDriver.init 0 0).2.dsi.commands_sent = freshDriver.dsi.commands_sent ++
       [⟨3, [0x80, 0x09, 0x01]⟩,
        ⟨3, [0x80, 0x09, 0x00]⟩,
        ⟨2, [0x17, 0x40]⟩,
        ⟨3, [0x00, 0x00, 0x00]⟩,
        ⟨0, []⟩,
        ⟨16, [0x00, 0x09, 0x0F, 0x0E, 0x07, 0x10, 0x0B, 0x0A,
              0x04, 0x07, 0x0B, 0x08, 0x0F, 0x10, 0x0A, 0x01]⟩,
        ⟨16, [0x00, 0x09, 0x0F, 0x0E, 0x07, 0x10, 0x0B, 0x0A,
              0x04, 0x07, 0x0B, 0x08, 0x0F, 0x10, 0x0A, 0x01]⟩,
        ⟨0, []⟩]) :=
  ⟨by decide, by decide, by decide, by decide, by decide,
    init_invalid_format_amended freshDriver 0 0
      (by decide) (by decide) (by decide) (by decide) (by decide)⟩

/-- C5: on an initialized driver whose channel does not fail,
`set_orientation(o)` returns `Ok` for each of the four orientation
codes, and `get_dimensions()` afterwards is `(480, 800)` for Portrait
and PortraitFlipped and `(800, 480)` for Landscape and
LandscapeFlipped (driver.rs:122-177). -/
theorem set_orientation_dimensions :
    ∀ (d : OTM8009ADriver) (o : Nat),
      d.initialized = true → d.dsi.errs = [] → o < 4 →
      (d.set_orientation o).1 = none ∧
      (d.set_orientation o).2.get_dimensions =
        (if o = OTM8009A_ORIENTATION_PORTRAIT ∨
            o = OTM8009A_ORIENTATION_PORTRAIT_FLIPPED
         then (480, 800) else (800, 480)) := by
  intro d o hinit herrs ho
  interval_cases o <;>
    simp [OTM8009ADriver.set_orientation, OTM8009ADriver.sendStep,
      MockDsi.send_dcs_command, herrs, hinit,
      OTM8009A_ORIENTATION_PORTRAIT, OTM8009A_ORIENTATION_LANDSCAPE,
      OTM8009A_ORIENTATION_PORTRAIT_FLIPPED, OTM8009A_ORIENTATION_LANDSCAPE_FLIPPED,
      OTM8009ADriver.get_dimensions, LCD_WIDTH, LCD_HEIGHT]

theorem set_orientation_dimensions_witness :
    readyDriver.initialized = true ∧ readyDriver.dsi.errs = [] ∧
    (0 : Nat) < 4 ∧
    ((readyDriver.set_orientation 0).1 = none ∧
     (readyDriver.set_orientation 0).2.get_dimensions =
       (if (0 : Nat) = OTM8009A_ORIENTATION_PORTRAIT ∨
           (0 : Nat) = OTM8009A_ORIENTATION_PORTRAIT_FLIPPED
        then (480, 800) else (800, 480))) :=
  ⟨rfl, rfl, by decide,
    set_orientation_dimensions readyDriver 0 rfl rfl (by decide)⟩

/-- C7 counterexample: the claim quantifies over every call, but the
Rust code computes `x + w` in `u16`, which wraps: on an 8×4 buffer,
`fill_rect(2, 0, 65534, 1, 5)` has `end_x = min((2 + 65534) mod 2^16, 8)
= 0`, so nothing is painted, while the claim's
`col ∈ [2, min(2+65534, 8)) = [2, 8)`, `row ∈ [0, 1)` says pixel (3,0)
must become 5. -/
theorem fill_rect_overflow_cex :
    ¬ (((MockFramebuffer.new 8 4).fill_rect 2 0 65534 1 5).get_pixel 3 0 = some 5) := by
  decide

/-- C7 amended: provided `x + w` and `y + h` do not overflow `u16`
(the claim's implicit reading; on overflow the sum wraps and fewer
pixels are painted), `fill_rect` on a well-formed buffer sets exactly
the pixels with `col ∈ [x, min(x+w, width))` and
`row ∈ [y, min(y+h, height))` to `color` and leaves every other pixel
unchanged — out-of-range extents are truncated, never rejected
(mocks.rs:242-254). -/
theorem fill_rect_exact_clip :
    ∀ (fb : MockFramebuffer) (x y w h color col row : Nat),
      fb.buffer.length = fb.width * fb.height →
      x + w < 65536 → y + h < 65536 →
      (fb.fill_rect x y w h color).get_pixel col row =
        (if x ≤ col ∧ col < min (x + w) fb.width ∧ y ≤ row ∧ row < min (y + h) fb.height
         then some color else fb.get_pixel col row) := by
  intro fb x y w h color col row hlen hxw hyh
  unfold MockFramebuffer.fill_rect MockFramebuffer.get_pixel
  rw [Nat.mod_eq_of_lt hxw, Nat.mod_eq_of_lt hyh]
  by_cases hoob : col ≥ fb.width ∨ row ≥ fb.height
  · have hC : ¬ (x ≤ col ∧ col < min (x + w) fb.width ∧ y ≤ row ∧
        row < min (y + h) fb.height) := by omega
    rw [if_pos hoob, if_pos hoob, if_neg hC]
  · have hcw : col < fb.width := by omega
    have hrh : row < fb.height := by omega
    have hW : 0 < fb.width := by omega
    rw [if_neg hoob, if_neg hoob, rect_foldl_get?]
    have hdiv : ∀ a b : Nat, b < fb.width → (a * fb.width + b) / fb.width = a := by
      intro a b hb
      rw [Nat.mul_comm, Nat.mul_add_div hW, Nat.div_eq_of_lt hb, Nat.add_zero]
    have hidx :
        (∃ r ∈ List.range' y (min (y + h) fb.height - y),
          ∃ c ∈ List.range' x (min (x + w) fb.width - x),
            r * fb.width + c = row * fb.width + col) ↔
        (x ≤ col ∧ col < min (x + w) fb.width ∧ y ≤ row ∧
          row < min (y + h) fb.height) := by
      constructor
      · rintro ⟨r, hr, c, hc, heq⟩
        rw [mem_range'_iff] at hr hc
        have hcW : c < fb.width := by omega
        have hr' : r = row := by
          have e1 := hdiv r c hcW
          have e2 := hdiv row col hcw
          rw [heq, e2] at e1
          exact e1.symm
        subst hr'
        have hc' : c = col := Nat.add_left_cancel heq
        subst hc'
        omega
      · rintro ⟨h1, h2, h3, h4⟩
        refine ⟨row, ?_, col, ?_, rfl⟩
        · rw [mem_range'_iff]
          omega
        · rw [mem_range'_iff]
          omega
    have hlen2 : row * fb.width + col < fb.buffer.length := by
      rw [hlen]
      calc row * fb.width + col < row * fb.width + fb.width := by omega
        _ = (row + 1) * fb.width := by ring
        _ ≤ fb.height * fb.width := Nat.mul_le_mul_right _ (by omega)
        _ = fb.width * fb.height := Nat.mul_comm _ _
    by_cases hcond : x ≤ col ∧ col < min (x + w) fb.width ∧ y ≤ row ∧
        row < min (y + h) fb.height
    · rw [if_pos hcond, if_pos ⟨hidx.mpr hcond, hlen2⟩]
    · rw [if_neg hcond, if_neg (fun hcontr => hcond (hidx.mp hcontr.1))]

theorem fill_rect_exact_clip_witness :
    ((MockFramebuffer.new 800 480).fill_rect 790 470 50 50 0xF800).get_pixel 795 475 =
      some 0xF800 :=
  (fill_rect_exact_clip (MockFramebuffer.new 800 480) 790 470 50 50 0xF800 795 475
    (List.length_replicate _ _) (by decide) (by decide)).trans (if_pos (by decide))

/-- C8: outside the buffer, the reference Pixel Buffer's `set_pixel` is
a silent no-op (mocks.rs:256-263), whereas the initialized driver
facade rejects the same coordinates with `InvalidCoordinates` and
leaves the whole driver — in particular its Pixel Buffer — untouched
(driver.rs:100-111). -/
theorem set_pixel_oob_contract :
    ∀ (fb : MockFramebuffer) (d : OTM8009ADriver) (x y color : Nat),
      (x ≥ fb.width ∨ y ≥ fb.height → fb.set_pixel x y color = fb) ∧
      (d.initialized = true → x ≥ d.width ∨ y ≥ d.height →
        (d.set_pixel x y color).1 = some Otm8009aError.InvalidCoordinates ∧
        (d.set_pixel x y color).2 = d) := by
  intro fb d x y color
  constructor
  · intro hoob
    unfold MockFramebuffer.set_pixel
    rw [if_neg]
    omega
  · intro hinit hoob
    unfold OTM8009ADriver.set_pixel
    rw [if_neg (by simp [hinit]), if_pos (by omega)]
    exact ⟨rfl, rfl⟩

theorem set_pixel_oob_contract_witness :
    ((850 : Nat) ≥ (MockFramebuffer.new 800 480).width ∨
      (10 : Nat) ≥ (MockFramebuffer.new 800 480).height) ∧
    (MockFramebuffer.new 800 480).set_pixel 850 10 7 = MockFramebuffer.new 800 480 ∧
    readyDriver.initialized = true ∧
    ((850 : Nat) ≥ readyDriver.width ∨ (10 : Nat) ≥ readyDriver.height) ∧
    ((readyDriver.set_pixel 850 10 7).1 = some Otm8009aError.InvalidCoordinates ∧
      (readyDriver.set_pixel 850 10 7).2 = readyDriver) :=
  ⟨by left; decide,
    (set_pixel_oob_contract (MockFramebuffer.new 800 480) readyDriver 850 10 7).1
      (by left; decide),
    rfl, by left; decide,
    (set_pixel_oob_contract (MockFramebuffer.new 800 480) readyDriver 850 10 7).2
      rfl (by left; decide)⟩

/-- C9: for every 16-bit value `c`, expanding with `rgb565_to_rgb888`
and re-packing with `rgb888_to_rgb565` reproduces `c` exactly
(`src/common.rs`). -/
theorem rgb565_roundtrip_lossless :
    ∀ c < 65536,
      rgb888_to_rgb565 (rgb565_to_rgb888 c).1 (rgb565_to_rgb888 c).2.1
        (rgb565_to_rgb888 c).2.2 = c := by
  intro c hc
  have h := roundtrip_test c hc
  simpa [rgb565_roundtrip] using h

theorem rgb565_roundtrip_lossless_witness :
    (0xF800 : Nat) < 65536 ∧
    rgb888_to_rgb565 (rgb565_to_rgb888 0xF800).1 (rgb565_to_rgb888 0xF800).2.1
      (rgb565_to_rgb888 0xF800).2.2 = 0xF800 :=
  ⟨by decide, rgb565_roundtrip_lossless 0xF800 (by decide)⟩

/-- C6: from a freshly constructed driver over arbitrary capability
doubles, after any sequence of public operations (with any per-call
channel/layer-manager success or failure pattern encoded in the
doubles' error scripts), `get_dimensions()` is one of the two
permutations of the panel's native 800×480 resolution and nothing
else: `new` starts at `(LCD_WIDTH, LCD_HEIGHT)` and only
`set_orientation`'s two dimension updates ever write `width`/`height`. -/
theorem reachable_dims_two_permutations :
    ∀ (dsi : MockDsi) (ltdc : MockLtdc) (fb : MockFramebuffer) (ops : List DriverOp),
      (ops.foldl applyOp (OTM8009ADriver.new dsi ltdc fb)).get_dimensions = (800, 480) ∨
      (ops.foldl applyOp (OTM8009ADriver.new dsi ltdc fb)).get_dimensions = (480, 800) := by
  intro dsi ltdc fb ops
  have h := foldl_dims_ok ops (OTM8009ADriver.new dsi ltdc fb) (Or.inl ⟨rfl, rfl⟩)
  unfold dims_ok at h
  rcases h with ⟨hw, hh⟩ | ⟨hw, hh⟩
  · exact Or.inl (by
      simp [OTM8009ADriver.get_dimensions, hw, hh, LCD_WIDTH, LCD_HEIGHT])
  · exact Or.inr (by
      simp [OTM8009ADriver.get_dimensions, hw, hh, LCD_WIDTH, LCD_HEIGHT])

/-- C10: whenever `init` reaches the layer-programming step, the
`LayerConfig` it hands to `configure_layer` targets layer 0 and carries
`framebuffer_pitch = width * 2` (in `u16`), where `width` is the
driver's current (and final) width — for every color-format argument,
including the ones whose pixel format is programmed as `Rgb888`; the
pitch is never derived from the color format's byte depth
(driver.rs:60). -/
theorem layer_pitch_is_width_times_two :
    ∀ (d : OTM8009ADriver) (cf o : Nat),
      d.ltdc.errs = [] → d.ltdc.events = [] →
      ∀ lay cfg, LtdcEvent.configureLayer lay cfg ∈ (d.init cf o).2.ltdc.events →
        lay = 0 ∧ cfg.framebuffer_pitch = (d.init cf o).2.width * 2 % 65536 := by
  intro d cf o herrl hev lay cfg
  unfold OTM8009ADriver.init
  split
  · rename_i e dI heq
    have hl : dI.ltdc = d.ltdc := by
      have h := init_otm8009a_ltdc (L := d.ltdc) d cf o rfl
      rw [heq] at h
      exact h
    intro hmem
    simp [hl, hev] at hmem
  · rename_i dI heq
    have hl : dI.ltdc = d.ltdc := by
      have h := init_otm8009a_ltdc (L := d.ltdc) d cf o rfl
      rw [heq] at h
      exact h
    split
    · intro hmem
      simp [hl, hev] at hmem
    · intro hmem
      simp only [MockLtdc.configure_layer, MockLtdc.set_framebuffer,
        MockLtdc.enable, hl, herrl, hev] at hmem ⊢
      simp at hmem
      obtain ⟨hlay, hcfg⟩ := hmem
      subst hlay
      subst hcfg
      exact ⟨rfl, rfl⟩

/-- The layer configuration that `init(Rgb888, Landscape)` on
`readyDriver` passes to the Layer Manager. -/
def layerCfgW : LayerConfig :=
  { layer := 0, window_x0 := 0, window_x1 := 800, window_y0 := 0,
    window_y1 := 480, pixel_format := PixelFormat.Rgb888, alpha := 255,
    red_blue_swap := false, framebuffer_address := 0,
    framebuffer_pitch := 1600 }

theorem layer_pitch_is_width_times_two_witness :
    readyDriver.ltdc.errs = [] ∧ readyDriver.ltdc.events = [] ∧
    LtdcEvent.configureLayer 0 layerCfgW ∈
      (readyDriver.init OTM8009A_FORMAT_RGB888 OTM8009A_ORIENTATION_LANDSCAPE).2.ltdc.events ∧
    ((0 : Nat) = 0 ∧ layerCfgW.framebuffer_pitch =
      (readyDriver.init OTM8009A_FORMAT_RGB888 OTM8009A_ORIENTATION_LANDSCAPE).2.width * 2 % 65536) :=
  ⟨rfl, rfl, by decide,
    layer_pitch_is_width_times_two readyDriver OTM8009A_FORMAT_RGB888
      OTM8009A_ORIENTATION_LANDSCAPE rfl rfl 0 layerCfgW (by decide)⟩

end Avmgl
